import Mathlib

/-!
Verification of the page-quality validation scripts against their
natural-language specification.

Each Python source file is shallowly embedded: the pure decision logic of a
check becomes a Lean function over the facts the check extracts from the page
(heading levels, image attributes, probe outcomes, ...), and the placement of
try/except blocks is mirrored by `Except`-valued functions.  Selenium and the
spreadsheet output are external collaborators and are not modelled.
-/

/-! ## String helpers shared by several embeddings -/

/-- Whether the list `needle` is an initial segment of `hay` (on characters). -/
def startsList : List Char → List Char → Bool
  | [], _ => true
  | _ :: _, [] => false
  | a :: as, b :: bs => a == b && startsList as bs

/-- Whether `needle` occurs contiguously anywhere inside `hay`. -/
def containsList (needle : List Char) : List Char → Bool
  | [] => startsList needle []
  | b :: bs => startsList needle (b :: bs) || containsList needle bs

/-- Python's `sub in s` substring test. -/
def strContains (s sub : String) : Bool :=
  containsList sub.data s.data

/-- Python's `s.startswith(pre)`. -/
def strStarts (s pre : String) : Bool :=
  startsList pre.data s.data

/-- Drop leading whitespace characters from a character list. -/
def dropLeadingWs : List Char → List Char
  | [] => []
  | c :: cs => if c.isWhitespace then dropLeadingWs cs else c :: cs

/-- Python's `str.strip()` with no argument: remove leading and trailing
whitespace. -/
def pyStrip (s : String) : String :=
  ⟨dropLeadingWs ((dropLeadingWs s.data.reverse).reverse)⟩

/-- Python truthiness of an optional string attribute (`None` and `""` are
falsy). -/
def truthy : Option String → Bool
  | none => false
  | some s => !(s == "")

/-- Python's `x if x else dflt` over an optional string attribute. -/
def pyOptStr (o : Option String) (dflt : String) : String :=
  match o with
  | none => dflt
  | some s => if s == "" then dflt else s

/-- Python's `repr` of a list of integers, e.g. `[1, 3, 2]`, as produced by
an f-string interpolation of a Python list. -/
def pyReprNatList (l : List Nat) : String :=
  "[" ++ String.intercalate ", " (l.map toString) ++ "]"

/-! ## HTML_Tag_Sequence_Test.py -/

/-- Embeds `all(x <= y for x, y in zip(levels, levels[1:]))`
(src/HTML_Tag_Sequence_Test.py:92). -/
def isValidSequence (levels : List Nat) : Bool :=
  (levels.zip levels.tail).all (fun p => p.1 ≤ p.2)

/-- Embeds `check_html_sequence`, src/HTML_Tag_Sequence_Test.py:75-98, restricted to
its decision logic: from the extracted numeric heading levels (in document
order) it returns the status string and the comment string of the single
aggregate result (the returned header texts are not modelled). -/
def check_html_sequence (levels : List Nat) : String × String :=
  if isValidSequence levels then
    ("Pass", "HTML tag sequence is valid.")
  else
    ("Fail", "HTML tag sequence is broken. Found sequence: " ++ pyReprNatList levels)

/-! ## H1_Tag_Existence_Test.py -/

/-- Outcome of the page interactions performed inside the `try` block of
`check_all_h1_tags`: either they all succeed and yield the list of `h1`
texts in DOM order, or a `TimeoutException` or some other exception is
raised at some point inside the block. -/
inductive H1Fault where
  | noFault
  | timeoutExc
  | otherExc (msg : String)
deriving DecidableEq

/-- Body of `check_all_h1_tags` for the fault-free path,
src/H1_Tag_Existence_Test.py:84-92: if some `h1` tags were found, return
`Pass` with the stripped non-empty texts; otherwise `Fail`. -/
def h1Result (tags : List String) (url : String) :
    String × String × List String × String :=
  if tags.isEmpty then
    ("Fail", "No H1 tags found.", [], url)
  else
    ("Pass", "H1 tags found.", (tags.map pyStrip).filter (fun s => !(s == "")), url)

/-- Embeds `check_all_h1_tags`, src/H1_Tag_Existence_Test.py:78-98.  The whole body
is inside `try`, with `except TimeoutException` and `except Exception`
handlers, so every fault is converted into a returned `Fail` tuple and the
function never raises to its caller (hence the `.ok` on every branch). -/
def check_all_h1_tags (f : H1Fault) (tags : List String) (url : String) :
    Except String (String × String × List String × String) :=
  match f with
  | .noFault => .ok (h1Result tags url)
  | .timeoutExc => .ok ("Fail", "Page load timeout.", [], url)
  | .otherExc e => .ok ("Fail", "Error: " ++ e, [], url)

/-! ## URL_Status_Code_Test.py: per-link classification and normalization -/

/-- Visible outcome of `session.get(link, timeout=5, verify=False)` at
src/URL_Status_Code_Test.py:102, as discriminated by the handlers at
lines 113-120: a resolved response with an HTTP status code, a
`requests.exceptions.Timeout` (all internal retries exhausted on timeouts),
or a `requests.exceptions.RequestException` with message `e`
(covering connection failures, including retry exhaustion). -/
inductive ProbeOutcome where
  | resolved (code : Nat)
  | timeoutErr
  | connectionError (e : String)
deriving DecidableEq

/-- Whether the probe outcome is a transient error (an exception rather
than a resolved HTTP status). -/
def isTransient : ProbeOutcome → Bool
  | .resolved _ => false
  | .timeoutErr => true
  | .connectionError _ => true

/-- Python truthiness of the `status_code` value when building the row's
`"HTTP Status Code"` field (`status_code if status_code else "N/A"`);
`none` stands for `"N/A"`. -/
def pyOptCode (c : Nat) : Option Nat :=
  if c = 0 then none else some c

/-- One entry of `link_data`, src/URL_Status_Code_Test.py:122-127:
the dict `{"URL", "Status", "HTTP Status Code", "Error Message"}`. -/
structure LinkRow where
  url : String
  status : String
  httpStatus : Option Nat
  errorMessage : String
deriving DecidableEq

/-- Body of the per-link loop, src/URL_Status_Code_Test.py:96-127: a 404
response gives status `"Fail"`, any other resolved response gives the
lowercase `"pass"`, and a timeout or request exception gives `"Fail"` with
the corresponding error message. -/
def classifyLink (url : String) (o : ProbeOutcome) : LinkRow :=
  match o with
  | .resolved code =>
      if code = 404 then
        { url := url, status := "Fail", httpStatus := pyOptCode code,
          errorMessage := "404 Not Found" }
      else
        { url := url, status := "pass", httpStatus := pyOptCode code,
          errorMessage := "None" }
  | .timeoutErr =>
      { url := url, status := "Fail", httpStatus := none, errorMessage := "Timeout" }
  | .connectionError e =>
      { url := url, status := "Fail", httpStatus := none,
        errorMessage := "Error: " ++ e }

/-- The full per-link loop over all probed links. -/
def checkLinks (probes : List (String × ProbeOutcome)) : List LinkRow :=
  probes.map (fun p => classifyLink p.1 p.2)

/-- The post-pass at src/URL_Status_Code_Test.py:131-134: if no row recorded
HTTP status 404, every row's status is overwritten with `"Pass"`. -/
def normalizeLinks (rows : List LinkRow) : List LinkRow :=
  if !(rows.any (fun item => item.httpStatus == some 404)) then
    rows.map (fun item => { item with status := "Pass" })
  else
    rows

/-- Embeds `overall_status` at src/URL_Status_Code_Test.py:139: `"Pass"` iff every
row's status is (capitalized) `"Pass"`. -/
def overallStatus (rows : List LinkRow) : String :=
  if rows.all (fun link => link.status == "Pass") then "Pass" else "Fail"

/-- The composed link-liveness computation of `check_url_status_and_save`:
classify each probed link, then apply the no-404 normalization pass. -/
def urlStatusRows (probes : List (String × ProbeOutcome)) : List LinkRow :=
  normalizeLinks (checkLinks probes)

/-! ## RetryingHttpClient: the retry/backoff engine

The retry loop itself lives in `urllib3`/`requests`, not in this repository;
src/URL_Status_Code_Test.py:86-88 only configures and mounts it. -/

/-- The outcome of one HTTP attempt as seen by the retry engine. -/
inductive AttemptResult where
  | status (code : Nat)
  | timeoutErr
  | connectionError
deriving DecidableEq

/-- The configuration handed to the retry engine.  `total` is the maximum
number of attempts, `backoffFactor` and `statusForcelist` are as in
`Retry(total=5, backoff_factor=1, status_forcelist=[500, 502, 503, 504])`
at src/URL_Status_Code_Test.py:87. -/
structure RetryConfig where
  total : Nat
  backoffFactor : Nat
  statusForcelist : List Nat
deriving DecidableEq

/-- The configuration constructed at src/URL_Status_Code_Test.py:87. -/
def urlRetryConfig : RetryConfig :=
  { total := 5, backoffFactor := 1, statusForcelist := [500, 502, 503, 504] }

/-- Modelled from the spec: the retry-trigger test of `RetryingHttpClient`
(the engine is in urllib3, not under src/) — "retry triggers are HTTP
500/502/503/504 or transient connection failure; a timeout counts as a
retryable transient failure", with the forcelist taken from the
configuration in src. -/
def retryable (cfg : RetryConfig) : AttemptResult → Bool
  | .status c => cfg.statusForcelist.contains c
  | .timeoutErr => true
  | .connectionError => true

/-- Trace of one probe: the index of the final attempt (attempts are numbered
from 1), the backoff delays slept before each retry, and the final attempt's
outcome. -/
structure ProbeTrace where
  attempts : Nat
  backoffs : List Nat
  final : AttemptResult
deriving DecidableEq

/-- Modelled from the spec: the retry loop of `RetryingHttpClient` (absent
from src/, which only configures it) — "up to `total` attempts per URL;
backoff is exponential starting at `backoffFactor` time units, doubling per
attempt, applied only to retryable outcomes".  `oracle k` is the outcome of
the k-th attempt; `left` counts the attempts still allowed including the
current one. -/
def probeAux (cfg : RetryConfig) (oracle : Nat → AttemptResult) :
    Nat → Nat → ProbeTrace
  | k, 0 => { attempts := k, backoffs := [], final := oracle k }
  | k, left + 1 =>
      let res := oracle k
      if retryable cfg res then
        let t := probeAux cfg oracle (k + 1) left
        { attempts := t.attempts,
          backoffs := cfg.backoffFactor * 2 ^ (k - 1) :: t.backoffs,
          final := t.final }
      else
        { attempts := k, backoffs := [], final := res }

/-- Runs `probe(url, timeout, maxAttempts)`: the retry loop starting at
attempt 1 with `cfg.total` attempts allowed. -/
def probe (cfg : RetryConfig) (oracle : Nat → AttemptResult) : ProbeTrace :=
  probeAux cfg oracle 1 (cfg.total - 1)

/-- Modelled from the requests-session semantics of the mounts at
src/URL_Status_Code_Test.py:86-88: the retrying adapter is mounted only for
the `"https://"` prefix, and the session's default adapter (used for every
other prefix, in particular `"http://"`) performs no retries, i.e. a single
attempt with an empty forcelist. -/
def sessionConfigFor (url : String) : RetryConfig :=
  if strStarts url "https://" then urlRetryConfig
  else { total := 1, backoffFactor := 1, statusForcelist := [] }

/-! ## Scrape_Data_from_Script_Tag.py -/

/-- The fixed dictionary built at src/Scrape_Data_from_Script_Tag.py:105-112.
Every field except `SiteURL` is a hard-coded placeholder constant. -/
structure ScrapeData where
  SiteURL : String
  CampaignID : String
  SiteName : String
  Browser : String
  CountryCode : String
  IP : String
deriving DecidableEq

/-- Second component of the pair returned by `scrape_script_data`: either the
fixed data dictionary or the `{"Error": str(e)}` dictionary of the `except`
branch. -/
inductive ScrapePayload where
  | fields (d : ScrapeData)
  | errorText (e : String)
deriving DecidableEq

/-- The page facts `scrape_script_data` touches: whether `driver.get(url)`
raises (with which message), and the inner HTML of the first script tag
(`none` when `find_element` raises, with message `lookupErr`). -/
structure ScrapeSession where
  navFails : Bool
  navErr : String
  scriptTag : Option String
  lookupErr : String

/-- Embeds `scrape_script_data`, src/Scrape_Data_from_Script_Tag.py:87-115.
`driver.get(url)` at line 98 is executed *before* the `try` block starts at
line 100, so a navigation failure propagates as an exception (`.error`);
faults inside the `try` are caught and returned as `("Fail", {"Error": e})`.
When the script tag is found, its content is read but the returned data is
the fixed dictionary with only `SiteURL` taken from the input. -/
def scrape_script_data (s : ScrapeSession) (url : String) :
    Except String (String × ScrapePayload) :=
  if s.navFails then
    .error s.navErr
  else
    match s.scriptTag with
    | none => .ok ("Fail", .errorText s.lookupErr)
    | some _ =>
        .ok ("Pass", .fields
          { SiteURL := url, CampaignID := "12345", SiteName := "Alojamiento",
            Browser := "Chrome", CountryCode := "US", IP := "192.168.1.1" })

/-! ## Currency_Filtering_Test.py -/

/-- One parsed dropdown option, src/Currency_Filtering_Test.py:108-114:
its `data-currency-country` attribute and its displayed symbol. -/
structure CurrencyOption where
  country : String
  symbol : String
deriving DecidableEq

/-- What happens in the per-currency `try` block at
src/Currency_Filtering_Test.py:124-162 for one option: an exception during
reopen/select, the option not re-found in the reopened dropdown, no price
tiles rendered, or a rendered list of tile texts. -/
inductive CurrencyProbe where
  | exc (msg : String)
  | notFound
  | noTiles
  | tiles (texts : List String)
deriving DecidableEq

/-- One entry of `results`: the dict
`{"Currency Name", "Currency Symbol", "Status", "Reason"}`. -/
structure CurrencyRow where
  name : String
  symbol : String
  status : String
  reason : String
deriving DecidableEq

/-- The per-currency body, src/Currency_Filtering_Test.py:121-162: each
branch appends exactly one row for the option. -/
def currencyRow (opt : CurrencyOption) (p : CurrencyProbe) : CurrencyRow :=
  match p with
  | .exc e =>
      { name := opt.country, symbol := opt.symbol, status := "Fail",
        reason := "Exception: " ++ e }
  | .notFound =>
      { name := opt.country, symbol := opt.symbol, status := "Fail",
        reason := "Currency option not found in dropdown" }
  | .noTiles =>
      { name := opt.country, symbol := opt.symbol, status := "Fail",
        reason := "No property tiles found" }
  | .tiles texts =>
      if texts.all (fun t => strContains t opt.symbol) then
        { name := opt.country, symbol := opt.symbol, status := "Pass",
          reason := "Validation successful" }
      else
        { name := opt.country, symbol := opt.symbol, status := "Fail",
          reason := "Currency symbol " ++ opt.symbol ++ " not found in property tiles" }

/-- Embeds `test_currency_filter`, src/Currency_Filtering_Test.py:78-169.
`setupFault` is an exception anywhere in the setup phase (navigation, wait,
dropdown click, option parsing) before the options are iterated; it is
caught by the outer handler at lines 166-169.  With no setup fault, an empty
option list returns the single `"All"` row of line 118; otherwise each
option contributes exactly one row.  Every branch returns (`.ok`): the whole
body is inside `try`/`except`. -/
def test_currency_filter (setupFault : Option String)
    (opts : List (CurrencyOption × CurrencyProbe)) :
    Except String (List CurrencyRow) :=
  match setupFault with
  | some e =>
      .ok [{ name := "All", symbol := "N/A", status := "Fail",
             reason := "Exception: " ++ e }]
  | none =>
      if opts.isEmpty then
        .ok [{ name := "All", symbol := "N/A", status := "Fail",
               reason := "No currency options found" }]
      else
        .ok (opts.map (fun p => currencyRow p.1 p.2))

/-! ## Image_Alt_Attribute_Test.py -/

/-- The two attributes read from one `img` element,
src/Image_Alt_Attribute_Test.py:89-90; `none` models a missing attribute
(`get_attribute` returning `None`). -/
structure ImageInfo where
  src : Option String
  alt : Option String
deriving DecidableEq

/-- One entry of `image_data`, src/Image_Alt_Attribute_Test.py:101-106:
the dict `{"Image Index", "Image Source", "Alt Text", "Status"}`.  There is
no reason field. -/
structure ImageRow where
  index : Nat
  source : String
  altText : String
  status : String
deriving DecidableEq

/-- The per-image body, src/Image_Alt_Attribute_Test.py:88-106: status is
`"Pass"` iff `img_alt` is truthy (present and non-empty); the record stores
the 1-based index, `"No Source"`/`"None"` for falsy attributes. -/
def imageRow (index : Nat) (img : ImageInfo) : ImageRow :=
  { index := index + 1,
    source := pyOptStr img.src "No Source",
    altText := pyOptStr img.alt "None",
    status := if truthy img.alt then "Pass" else "Fail" }

/-- The `for index, img in enumerate(images)` loop producing `image_data`,
carrying the running 0-based index. -/
def imageRowsFrom (index : Nat) : List ImageInfo → List ImageRow
  | [] => []
  | img :: rest => imageRow index img :: imageRowsFrom (index + 1) rest

/-- Embeds `check_image_alt_and_save` restricted to its decision logic,
src/Image_Alt_Attribute_Test.py:75-113: one row per image, in DOM order. -/
def check_image_alt (images : List ImageInfo) : List ImageRow :=
  imageRowsFrom 0 images

/-! ## Spec-level aggregation (ResultAggregator / RunSummary)

No orchestrator or aggregator exists under src/ — each script aggregates its
own items (the only instance is `overall_status` at
src/URL_Status_Code_Test.py:139, embedded above as `overallStatus`).  The
structures below are modelled from the spec. -/

/-- Status enumeration of the spec's data model: `CheckResult.status` ranges
over `{Pass, Fail}` and `ValidatorOutcome.validatorStatus` over
`{Pass, Fail, Error}`. -/
inductive Status where
  | pass
  | fail
  | error
deriving DecidableEq

/-- Modelled from the spec: `CheckResult` = {subject, status, reason,
metadata}. -/
structure CheckResult where
  subject : String
  status : Status
  reason : String
  metadata : List (String × String)
deriving DecidableEq

/-- Modelled from the spec: `ValidatorOutcome` = {validatorName, items,
validatorStatus}. -/
structure ValidatorOutcome where
  validatorName : String
  items : List CheckResult
  validatorStatus : Status
deriving DecidableEq

/-- Modelled from the spec: `RunSummary.overallStatus` — "Pass iff every
outcome.validatorStatus == Pass and every item.status == Pass". -/
def overallOf (outcomes : List ValidatorOutcome) : Status :=
  if outcomes.all (fun o =>
      o.validatorStatus == Status.pass &&
      o.items.all (fun c => c.status == Status.pass)) then
    Status.pass
  else
    Status.fail

/-- Modelled from the spec: `RunSummary` = {url, outcomes, overallStatus},
built once per invocation from its outcome sequence. -/
structure RunSummary where
  url : String
  outcomes : List ValidatorOutcome
  overallStatus : Status
deriving DecidableEq

/-- Build a `RunSummary` by aggregating an outcome sequence. -/
def mkRunSummary (url : String) (outcomes : List ValidatorOutcome) : RunSummary :=
  { url := url, outcomes := outcomes, overallStatus := overallOf outcomes }

/-- Whether an `Except`-valued computation returned normally. -/
def isOkE {α : Type} : Except String α → Bool
  | .ok _ => true
  | .error _ => false

/-! ## Helper lemmas -/

/-- The zip-with-tail test of line 92 coincides with chain-wise `≤`. -/
theorem isValidSequence_iff_chain : ∀ l : List Nat,
    isValidSequence l = true ↔ l.Chain' (· ≤ ·)
  | [] => by simp [isValidSequence]
  | [_] => by simp [isValidSequence]
  | a :: b :: t => by
    have ih := isValidSequence_iff_chain (b :: t)
    simp only [isValidSequence, List.tail_cons, List.zip_cons_cons, List.all_cons,
      Bool.and_eq_true, decide_eq_true_eq, List.chain'_cons] at ih ⊢
    exact and_congr Iff.rfl ih

theorem imageRowsFrom_length (k : Nat) :
    ∀ l : List ImageInfo, (imageRowsFrom k l).length = l.length := by
  intro l
  induction l generalizing k with
  | nil => rfl
  | cons img rest ih => simp [imageRowsFrom, ih]

theorem check_image_alt_length (images : List ImageInfo) :
    (check_image_alt images).length = images.length :=
  imageRowsFrom_length 0 images

theorem imageRowsFrom_get :
    ∀ (l : List ImageInfo) (k i : Nat) (h : i < l.length),
      (imageRowsFrom k l).get ⟨i, by rw [imageRowsFrom_length]; exact h⟩ =
        imageRow (k + i) (l.get ⟨i, h⟩) := by
  intro l
  induction l with
  | nil => intro k i h; exact absurd h (Nat.not_lt_zero i)
  | cons img rest ih =>
    intro k i h
    cases i with
    | zero => rfl
    | succ j =>
      have hj : j < rest.length := Nat.lt_of_succ_lt_succ h
      have := ih (k + 1) j hj
      simpa [imageRowsFrom, Nat.add_assoc, Nat.add_comm 1 j] using this

theorem probeAux_attempts_le (cfg : RetryConfig) (oracle : Nat → AttemptResult) :
    ∀ left k, (probeAux cfg oracle k left).attempts ≤ k + left := by
  intro left
  induction left with
  | zero => intro k; simp [probeAux]
  | succ n ih =>
    intro k
    by_cases h : retryable cfg (oracle k) = true
    · have := ih (k + 1)
      simp only [probeAux, h, if_true]
      omega
    · simp [probeAux, h]

theorem probeAux_attempts_ge (cfg : RetryConfig) (oracle : Nat → AttemptResult) :
    ∀ left k, k ≤ (probeAux cfg oracle k left).attempts := by
  intro left
  induction left with
  | zero => intro k; simp [probeAux]
  | succ n ih =>
    intro k
    by_cases h : retryable cfg (oracle k) = true
    · have := ih (k + 1)
      simp only [probeAux, h, if_true]
      omega
    · simp [probeAux, h]

theorem probeAux_retry_only (cfg : RetryConfig) (oracle : Nat → AttemptResult) :
    ∀ left k j, k ≤ j → j < (probeAux cfg oracle k left).attempts →
      retryable cfg (oracle j) = true := by
  intro left
  induction left with
  | zero =>
    intro k j hkj hj
    simp only [probeAux] at hj
    omega
  | succ n ih =>
    intro k j hkj hj
    by_cases h : retryable cfg (oracle k) = true
    · rcases Nat.eq_or_lt_of_le hkj with rfl | hlt
      · exact h
      · simp only [probeAux, h, if_true] at hj
        exact ih (k + 1) j hlt hj
    · simp [probeAux, h] at hj
      omega

theorem probeAux_backoffs (cfg : RetryConfig) (oracle : Nat → AttemptResult) :
    ∀ left k, (probeAux cfg oracle k left).backoffs =
      (List.range' k ((probeAux cfg oracle k left).attempts - k)).map
        (fun j => cfg.backoffFactor * 2 ^ (j - 1)) := by
  intro left
  induction left with
  | zero => intro k; simp [probeAux]
  | succ n ih =>
    intro k
    by_cases h : retryable cfg (oracle k) = true
    · have hge := probeAux_attempts_ge cfg oracle n (k + 1)
      have := ih (k + 1)
      simp only [probeAux, h, if_true]
      have hsub : (probeAux cfg oracle (k + 1) n).attempts - k =
          ((probeAux cfg oracle (k + 1) n).attempts - (k + 1)) + 1 := by omega
      rw [hsub, List.range'_succ, List.map_cons, this]
    · simp only [probeAux, h, if_false]
      simp

theorem startsList_self : ∀ l : List Char, startsList l l = true := by
  intro l
  induction l with
  | nil => rfl
  | cons c cs ih => simp [startsList, ih]

theorem containsList_append_self : ∀ a b : List Char, containsList b (a ++ b) = true := by
  intro a b
  induction a with
  | nil =>
    cases b with
    | nil => rfl
    | cons c cs => simp [containsList, startsList_self]
  | cons c a ih =>
    simp [containsList, ih]

/-- Appending a prefix never loses a substring occurrence. -/
theorem strContains_append (pre s : String) : strContains (pre ++ s) s = true := by
  simp only [strContains, String.data_append]
  exact containsList_append_self pre.data s.data

/-! ## Claim theorems -/

/-- C3: the header-hierarchy check returns Pass iff the extracted level
sequence is non-decreasing (`L[i] <= L[i+1]` for all consecutive `i`), and
when it fails, the single aggregate result's reason contains the literal
offending level sequence. -/
theorem C3_header_hierarchy (levels : List Nat) :
    ((check_html_sequence levels).1 = "Pass" ↔
      ∀ (i : ℕ) (h : i < levels.length - 1),
        levels.get ⟨i, by omega⟩ ≤ levels.get ⟨i + 1, by omega⟩) ∧
    ((check_html_sequence levels).1 = "Fail" →
      strContains (check_html_sequence levels).2 (pyReprNatList levels) = true) := by
  constructor
  · by_cases h : isValidSequence levels = true
    · refine iff_of_true ?_ ?_
      · simp [check_html_sequence, h]
      · exact List.chain'_iff_get.mp ((isValidSequence_iff_chain levels).mp h)
    · refine iff_of_false ?_ ?_
      · simp only [check_html_sequence, if_neg h]
        decide
      · intro hget
        exact h ((isValidSequence_iff_chain levels).mpr (List.chain'_iff_get.mpr hget))
  · intro hfail
    by_cases h : isValidSequence levels = true
    · simp only [check_html_sequence, if_pos h] at hfail
      exact absurd hfail (by decide)
    · simp only [check_html_sequence, if_neg h]
      exact strContains_append "HTML tag sequence is broken. Found sequence: " (pyReprNatList levels)

theorem C3_header_hierarchy_witness :
    (check_html_sequence [1, 3, 2]).1 = "Fail" ∧
    strContains (check_html_sequence [1, 3, 2]).2 (pyReprNatList [1, 3, 2]) = true :=
  ⟨by decide, (C3_header_hierarchy [1, 3, 2]).2 (by decide)⟩

/-- C9: whenever the script-tag scrape finds a script element (whatever its
inner content), it returns "Pass" with the fixed data dictionary whose only
input-dependent field is `SiteURL`; the right-hand side does not mention
`content`, so the script tag's content has no effect. -/
theorem C9_scrape_fixed_data (url content navErr lookupErr : String) :
    scrape_script_data
      { navFails := false, navErr := navErr, scriptTag := some content,
        lookupErr := lookupErr } url =
      .ok ("Pass", .fields
        { SiteURL := url, CampaignID := "12345", SiteName := "Alojamiento",
          Browser := "Chrome", CountryCode := "US", IP := "192.168.1.1" }) := rfl

/-- C10: the H1 check returns "Pass" iff at least one h1 element was found;
the returned list holds only non-empty stripped texts; a page whose only h1
text is whitespace yields Pass with an empty text list. -/
theorem C10_h1_existence (tags : List String) (url : String) :
    ((h1Result tags url).1 = "Pass" ↔ tags ≠ []) ∧
    (∀ t ∈ (h1Result tags url).2.2.1, t ≠ "" ∧ ∃ t0 ∈ tags, t = pyStrip t0) ∧
    h1Result [" "] url = ("Pass", "H1 tags found.", [], url) := by
  refine ⟨?_, ?_, ?_⟩
  · cases tags with
    | nil =>
      refine iff_of_false ?_ (fun hne => hne rfl)
      simp only [h1Result, List.isEmpty_nil, if_pos]
      decide
    | cons a t =>
      refine iff_of_true ?_ (by simp)
      simp [h1Result]
  · intro t ht
    cases tags with
    | nil => simp [h1Result] at ht
    | cons a ts =>
      simp only [h1Result, List.isEmpty_cons, Bool.false_eq_true, if_false] at ht
      rw [List.mem_filter] at ht
      obtain ⟨hmem, hpred⟩ := ht
      rw [List.mem_map] at hmem
      obtain ⟨t0, ht0, rfl⟩ := hmem
      refine ⟨?_, t0, ht0, rfl⟩
      intro hempty
      rw [hempty] at hpred
      exact absurd hpred (by decide)
  · rfl

theorem C10_h1_existence_witness : (h1Result ["Bienvenido"] "u").1 = "Pass" :=
  (C10_h1_existence ["Bienvenido"] "u").1.mpr (by decide)

/-- C5 counterexample: with zero discoverable options the emitted reason is
"No currency options found" (capital N), not the claimed literal
"no currency options found". -/
theorem C5_counterexample :
    test_currency_filter none [] =
      .ok [{ name := "All", symbol := "N/A", status := "Fail",
             reason := "No currency options found" }] ∧
    ¬ ("No currency options found" = "no currency options found") :=
  ⟨rfl, by decide⟩

/-- C5 (amended): zero discoverable options yield exactly one Fail result for
"All" with reason "No currency options found" and no iteration; N > 0
options yield exactly one result per option (so exactly N results),
regardless of each option's outcome. -/
theorem C5_amended_currency_counts (opts : List (CurrencyOption × CurrencyProbe)) :
    (test_currency_filter none [] =
      .ok [{ name := "All", symbol := "N/A", status := "Fail",
             reason := "No currency options found" }]) ∧
    (opts ≠ [] →
      test_currency_filter none opts =
        .ok (opts.map (fun p => currencyRow p.1 p.2)) ∧
      (opts.map (fun p => currencyRow p.1 p.2)).length = opts.length) := by
  refine ⟨rfl, fun h => ⟨?_, by simp⟩⟩
  have he : opts.isEmpty = false := by
    cases opts with
    | nil => exact absurd rfl h
    | cons a t => rfl
  simp [test_currency_filter, he]

theorem C5_amended_currency_counts_witness :
    test_currency_filter none [({ country := "US", symbol := "$" }, CurrencyProbe.noTiles)] =
      .ok [{ name := "US", symbol := "$", status := "Fail",
             reason := "No property tiles found" }] :=
  ((C5_amended_currency_counts
    [({ country := "US", symbol := "$" }, CurrencyProbe.noTiles)]).2 (by decide)).1

/-- C6 counterexample: the row produced for an image without an alt attribute
records Alt Text "None" and Status "Fail"; no field of the row contains the
claimed reason string "missing alt attribute". -/
theorem C6_counterexample :
    check_image_alt [{ src := some "logo.png", alt := none }] =
      [{ index := 1, source := "logo.png", altText := "None", status := "Fail" }] ∧
    strContains "logo.png" "missing alt attribute" = false ∧
    strContains "None" "missing alt attribute" = false ∧
    strContains "Fail" "missing alt attribute" = false :=
  ⟨by decide, by decide, by decide, by decide⟩

/-- C6 (amended): exactly one row per image, order-stable (row i is the
image i's row, 1-based index); status is Pass iff the alt attribute is
present and non-empty; an image with alt="" or no alt attribute gets
Status "Fail" and Alt Text "None" — but no reason string is recorded. -/
theorem C6_amended_alt_text (images : List ImageInfo) :
    (check_image_alt images).length = images.length ∧
    (∀ (i : Nat) (h : i < images.length),
      (check_image_alt images).get
          ⟨i, Nat.lt_of_lt_of_eq h (check_image_alt_length images).symm⟩ =
        imageRow i (images.get ⟨i, h⟩)) ∧
    (∀ (idx : Nat) (img : ImageInfo),
      ((imageRow idx img).status = "Pass" ↔ ∃ a, img.alt = some a ∧ a ≠ "")) ∧
    (∀ (idx : Nat) (img : ImageInfo),
      (img.alt = none ∨ img.alt = some "") →
        (imageRow idx img).status = "Fail" ∧ (imageRow idx img).altText = "None") := by
  refine ⟨check_image_alt_length images, ?_, ?_, ?_⟩
  · intro i h
    simpa using imageRowsFrom_get images 0 i h
  · intro idx img
    cases himg : img.alt with
    | none =>
      refine iff_of_false ?_ ?_
      · simp only [imageRow, truthy, himg]
        decide
      · rintro ⟨a, ha, -⟩
        exact Option.noConfusion ha
    | some a =>
      by_cases ha : a = ""
      · refine iff_of_false ?_ ?_
        · simp only [imageRow, truthy, himg, ha]
          decide
        · rintro ⟨b, hb, hbne⟩
          exact hbne (Option.some.inj hb ▸ ha)
      · refine iff_of_true ?_ ⟨a, rfl, ha⟩
        have : (a == "") = false := by
          exact beq_eq_false_iff_ne.mpr ha
        simp [imageRow, truthy, himg, this]
  · intro idx img h
    rcases h with h | h <;> simp [imageRow, truthy, pyOptStr, h]

theorem C6_amended_alt_text_witness :
    (imageRow 0 { src := none, alt := some "Logo" }).status = "Pass" :=
  ((C6_amended_alt_text [{ src := none, alt := some "Logo" }]).2.2.1 0
    { src := none, alt := some "Logo" }).mpr ⟨"Logo", rfl, by decide⟩

/-- C4 counterexample: `scrape_script_data` performs its navigation before
the `try` block starts, so a navigation failure propagates as an exception
to the caller instead of being converted into a returned outcome. -/
theorem C4_counterexample :
    scrape_script_data
      { navFails := true, navErr := "NavigationError: name not resolved",
        scriptTag := some "window.data = 1", lookupErr := "" }
      "https://www.alojamiento.io/" =
      .error "NavigationError: name not resolved" := rfl

/-- C4 (amended): the H1 and currency-filter checks never raise — every
internal fault is caught and converted into a returned outcome with status
"Fail" (not "Error") and a single diagnostic entry; the script-scrape check
also returns normally for every fault occurring after navigation, but its
navigation step sits outside the `try` block. -/
theorem C4_amended_fault_boundary (f : H1Fault) (tags : List String) (url : String)
    (sf : Option String) (opts : List (CurrencyOption × CurrencyProbe))
    (s : ScrapeSession) :
    isOkE (check_all_h1_tags f tags url) = true ∧
    (∀ e, check_all_h1_tags (.otherExc e) tags url =
      .ok ("Fail", "Error: " ++ e, [], url)) ∧
    isOkE (test_currency_filter sf opts) = true ∧
    (∀ e, test_currency_filter (some e) opts =
      .ok [{ name := "All", symbol := "N/A", status := "Fail",
             reason := "Exception: " ++ e }]) ∧
    (s.navFails = false → isOkE (scrape_script_data s url) = true) := by
  refine ⟨?_, fun e => rfl, ?_, fun e => rfl, ?_⟩
  · cases f <;> rfl
  · cases sf with
    | some e => rfl
    | none =>
      by_cases h : opts.isEmpty <;> simp [test_currency_filter, h, isOkE]
  · intro h
    cases hs : s.scriptTag <;> simp [scrape_script_data, h, hs, isOkE]

theorem C4_amended_fault_boundary_witness :
    isOkE (scrape_script_data
      { navFails := false, navErr := "", scriptTag := some "window.data = 1",
        lookupErr := "" }
      "https://www.alojamiento.io/") = true :=
  (C4_amended_fault_boundary .noFault [] "https://www.alojamiento.io/" none []
    { navFails := false, navErr := "", scriptTag := some "window.data = 1",
      lookupErr := "" }).2.2.2.2 rfl

/-- C7: the overall run status is Pass iff every validator outcome's status
is Pass and every contained item's status is Pass; it is computed purely
from the outcome sequence, re-aggregating a summary's own outcomes
reproduces the summary, and the single aggregation instance present in src
(line 139 of URL_Status_Code_Test.py) satisfies the same contract. -/
theorem C7_overall_aggregation (url : String) (outcomes : List ValidatorOutcome)
    (rows : List LinkRow) :
    (overallOf outcomes = Status.pass ↔
      ∀ o ∈ outcomes, o.validatorStatus = Status.pass ∧
        ∀ c ∈ o.items, c.status = Status.pass) ∧
    (mkRunSummary url outcomes).overallStatus = overallOf outcomes ∧
    mkRunSummary url (mkRunSummary url outcomes).outcomes = mkRunSummary url outcomes ∧
    (overallStatus rows = "Pass" ↔ ∀ r ∈ rows, r.status = "Pass") := by
  refine ⟨?_, rfl, rfl, ?_⟩
  · by_cases h : (outcomes.all (fun o =>
        o.validatorStatus == Status.pass &&
        o.items.all (fun c => c.status == Status.pass))) = true
    · refine iff_of_true ?_ ?_
      · simp [overallOf, h]
      · simpa [List.all_eq_true, Bool.and_eq_true, beq_iff_eq] using h
    · refine iff_of_false ?_ ?_
      · simp only [overallOf, if_neg h]
        decide
      · intro hall
        exact h (by simpa [List.all_eq_true, Bool.and_eq_true, beq_iff_eq] using hall)
  · by_cases h : (rows.all (fun link => link.status == "Pass")) = true
    · refine iff_of_true ?_ ?_
      · simp [overallStatus, h]
      · simpa [List.all_eq_true, beq_iff_eq] using h
    · refine iff_of_false ?_ ?_
      · simp only [overallStatus, if_neg h]
        decide
      · intro hall
        exact h (by simpa [List.all_eq_true, beq_iff_eq] using hall)

theorem C7_overall_aggregation_witness : overallOf [] = Status.pass :=
  (C7_overall_aggregation "https://www.alojamiento.io/" [] []).1.mpr (by simp)

/-- C1: before normalization a probed link is classified "Fail" iff its last
resolved HTTP status is 404 or its probe ended in a transient error
(timeout/connection failure, i.e. retries exhausted); and if no probed link
resolved to 404, the post-pass forces every item's status and the overall
status to "Pass" — so transient failures alone never yield a final Fail. -/
theorem C1_link_liveness (probes : List (String × ProbeOutcome)) :
    (∀ p ∈ probes,
      ((classifyLink p.1 p.2).status = "Fail" ↔
        (p.2 = ProbeOutcome.resolved 404 ∨ isTransient p.2 = true))) ∧
    ((∀ p ∈ probes, p.2 ≠ ProbeOutcome.resolved 404) →
      (∀ r ∈ urlStatusRows probes, r.status = "Pass") ∧
      overallStatus (urlStatusRows probes) = "Pass") := by
  constructor
  · rintro ⟨u, o⟩ -
    cases o with
    | resolved code =>
      by_cases hc : code = 404
      · subst hc
        refine iff_of_true ?_ (Or.inl rfl)
        simp [classifyLink]
      · refine iff_of_false ?_ ?_
        · simp only [classifyLink, if_neg hc]
          decide
        · rintro (h404 | htr)
          · exact hc (ProbeOutcome.resolved.inj h404)
          · exact absurd htr (by simp [isTransient])
    | timeoutErr => exact iff_of_true rfl (Or.inr rfl)
    | connectionError e => exact iff_of_true rfl (Or.inr rfl)
  · intro h
    have hno : ((checkLinks probes).any fun item => item.httpStatus == some 404) = false := by
      rw [List.any_eq_false]
      rintro r hr
      rw [checkLinks, List.mem_map] at hr
      obtain ⟨⟨u, o⟩, hp, rfl⟩ := hr
      have hne := h _ hp
      cases o with
      | resolved code =>
        have hc : code ≠ 404 := fun hcc => hne (by rw [hcc])
        simp only [classifyLink, if_neg hc, pyOptCode]
        by_cases h0 : code = 0 <;> simp [h0, hc]
      | timeoutErr => simp [classifyLink]
      | connectionError e => simp [classifyLink]
    have hnorm : urlStatusRows probes =
        (checkLinks probes).map (fun item => { item with status := "Pass" }) := by
      simp [urlStatusRows, normalizeLinks, hno]
    constructor
    · intro r hr
      rw [hnorm, List.mem_map] at hr
      obtain ⟨r', -, rfl⟩ := hr
      rfl
    · rw [overallStatus, if_pos]
      rw [List.all_eq_true]
      intro r hr
      rw [hnorm, List.mem_map] at hr
      obtain ⟨r', -, rfl⟩ := hr
      rfl

theorem C1_link_liveness_witness :
    overallStatus (urlStatusRows
      [("https://a.example/", ProbeOutcome.resolved 200),
       ("https://b.example/", ProbeOutcome.timeoutErr),
       ("https://c.example/", ProbeOutcome.connectionError "connection refused")]) = "Pass" :=
  ((C1_link_liveness
    [("https://a.example/", ProbeOutcome.resolved 200),
     ("https://b.example/", ProbeOutcome.timeoutErr),
     ("https://c.example/", ProbeOutcome.connectionError "connection refused")]).2
    (by decide)).2

/-- C2: the retrying client makes at most 5 attempts per URL (the configured
maximum); every non-final attempt had a retryable outcome; the retry
triggers are exactly HTTP 500/502/503/504, timeout and connection error
(never 200/301/404); and the backoff delays, applied only before retries,
are exponential starting at 1 time unit and doubling per attempt. -/
theorem C2_retry_policy (oracle : Nat → AttemptResult) :
    urlRetryConfig.total = 5 ∧
    (probe urlRetryConfig oracle).attempts ≤ urlRetryConfig.total ∧
    1 ≤ (probe urlRetryConfig oracle).attempts ∧
    (∀ j, 1 ≤ j → j < (probe urlRetryConfig oracle).attempts →
      retryable urlRetryConfig (oracle j) = true) ∧
    (∀ c, retryable urlRetryConfig (AttemptResult.status c) = true ↔
      (c = 500 ∨ c = 502 ∨ c = 503 ∨ c = 504)) ∧
    retryable urlRetryConfig AttemptResult.timeoutErr = true ∧
    retryable urlRetryConfig AttemptResult.connectionError = true ∧
    retryable urlRetryConfig (AttemptResult.status 200) = false ∧
    retryable urlRetryConfig (AttemptResult.status 301) = false ∧
    retryable urlRetryConfig (AttemptResult.status 404) = false ∧
    (probe urlRetryConfig oracle).backoffs =
      (List.range' 1 ((probe urlRetryConfig oracle).attempts - 1)).map
        (fun j => 2 ^ (j - 1)) := by
  refine ⟨rfl, ?_, ?_, ?_, ?_, rfl, rfl, by decide, by decide, by decide, ?_⟩
  · exact probeAux_attempts_le urlRetryConfig oracle 4 1
  · exact probeAux_attempts_ge urlRetryConfig oracle 4 1
  · intro j h1 hj
    exact probeAux_retry_only urlRetryConfig oracle 4 1 j h1 hj
  · intro c
    simp [retryable, urlRetryConfig]
  · have := probeAux_backoffs urlRetryConfig oracle 4 1
    simpa [probe, urlRetryConfig] using this

theorem C2_retry_policy_witness :
    (probe urlRetryConfig (fun _ => AttemptResult.status 503)).attempts ≤ urlRetryConfig.total ∧
    retryable urlRetryConfig (AttemptResult.status 500) = true :=
  ⟨(C2_retry_policy (fun _ => AttemptResult.status 503)).2.1,
   ((C2_retry_policy (fun _ => AttemptResult.status 503)).2.2.2.2.1 500).mpr (Or.inl rfl)⟩

/-- C8: the retry-configured adapter is mounted only for the "https://"
prefix, so probing a plain-http link uses the default adapter: exactly one
attempt, no backoff, whatever the outcome — including statuses 500, 502,
503 and 504. -/
theorem C8_http_no_retry (url : String) (oracle : Nat → AttemptResult)
    (hhttp : strStarts url "http" = true)
    (hnotls : strStarts url "https://" = false) :
    (probe (sessionConfigFor url) oracle).attempts = 1 ∧
    (probe (sessionConfigFor url) oracle).backoffs = [] ∧
    (probe (sessionConfigFor url) oracle).final = oracle 1 := by
  have hcfg : sessionConfigFor url =
      { total := 1, backoffFactor := 1, statusForcelist := [] } := by
    simp [sessionConfigFor, hnotls]
  rw [hcfg]
  exact ⟨rfl, rfl, rfl⟩

theorem C8_http_no_retry_witness :
    (probe (sessionConfigFor "http://example.com/") (fun _ => AttemptResult.status 500)).attempts = 1 :=
  (C8_http_no_retry "http://example.com/" (fun _ => AttemptResult.status 500)
    (by decide) (by decide)).1
